import Mathlib

/-
Shallow embedding of the exercise-session lifecycle coordinator of the
Knee-Braced repository.

Source files embedded:
- src/unnamed/part_000 (PatientDashboard): session state machine
  (handleStartExercise, handleCompleteExercise), the reconciliation effect
  that watches store updates, and fetchNetworkRecommendation.
- src/server/routes.ts: safeParseJSON and the POST /api/n8n/patient-query
  forwarder.

External asynchronous calls (device gateway commands, Firestore writes,
HTTP fetches, JSON.parse) are modelled by environment records that state,
per call, whether the call succeeds and what it returns; the handlers are
then pure functions from the environment and the current component state to
the next state plus the ordered list of external calls they issue.
-/

namespace KneeBraced

/-- Fields of an AssignedExercise document that the coordinator reads:
document id, exerciseId, display name, and status string
(assigned, in_progress or completed). -/
structure AssignedExercise where
  id : String
  exerciseId : String
  exerciseName : String
  status : String
  deriving DecidableEq, Repr

/-- The mutable coordinator state of PatientDashboard that the session
lifecycle touches: the sessionLoading busy flag, the session slot
(activeAssignmentId, activeProgressId), and the device gateway observable
isRecording. -/
structure CoordState where
  sessionLoading : Bool
  activeAssignmentId : Option String
  activeProgressId : Option String
  isRecording : Bool
  deriving DecidableEq, Repr

/-- Initial component state: useState(false), useState(null), useState(null),
device not recording. -/
def initialCoordState : CoordState :=
  { sessionLoading := false, activeAssignmentId := none,
    activeProgressId := none, isRecording := false }

/-- A write issued to the remote record store, with the fields the code
passes: updateAssignedExercise, createExerciseProgress,
updateExerciseProgress. -/
inductive StoreWrite where
  | updateAssigned (patientId docId status : String) (completedAt : Option Nat)
  | createProgress (patientId exerciseId assignedExerciseId : String)
      (sessionStartTime : Nat)
  | updateProgress (patientId docId status : String)
      (sessionEndTime completedAt : Nat)
  deriving DecidableEq, Repr

/-- An external call or observable action issued by the coordinator, in
program order. A store or device effect is recorded when the call is made,
whether or not the environment makes it succeed. -/
inductive Effect where
  | deviceStartRecording (exerciseId : String)
  | deviceStopRecording
  | store (w : StoreWrite)
  | toast (title : String)
  | scheduleRecommendationFetch (delayMs : Nat)
  deriving DecidableEq, Repr

/-- True for user-facing toast notices, which are neither device commands
nor store writes. -/
def Effect.isToast : Effect → Bool
  | .toast _ => true
  | _ => false

/-- True for writes to the remote record store. -/
def Effect.isStore : Effect → Bool
  | .store _ => true
  | _ => false

/-- True for commands sent to the device gateway. -/
def Effect.isDevice : Effect → Bool
  | .deviceStartRecording _ => true
  | .deviceStopRecording => true
  | _ => false

/-- True exactly for updateExerciseProgress store writes. -/
def Effect.isProgressUpdate : Effect → Bool
  | .store (.updateProgress _ _ _ _ _) => true
  | _ => false

/-- Environment of one handleStartExercise run: the authenticated uid
(userProfile?.uid), the device connected observable, and the outcome of each
awaited call in the order the code makes them. createProgressResult carries
the id of the created progress document, or none when
createExerciseProgress throws. revertOk is the outcome of the best-effort
revert write in the catch block (its failure is swallowed). -/
structure StartEnv where
  uid : Option String
  connected : Bool
  startRecordingOk : Bool
  updateAssignedOk : Bool
  createProgressResult : Option String
  revertOk : Bool
  now : Nat
  deriving DecidableEq, Repr

/-- Result classification of a start request, mirroring which code path
ran: early return without a user, one of the two guard rejections, the
full success path, or the catch path. -/
inductive StartOutcome where
  | noUser
  | rejectedDeviceNotConnected
  | rejectedSessionActive
  | started
  | startFailed
  deriving DecidableEq, Repr

/-- Embedding of handleStartExercise (src/unnamed/part_000, lines 160-223).
Guards: missing uid returns silently; device not connected and
sessionLoading-or-active-slot each toast and return before any device or
store call. Past the guards the code sets sessionLoading, then awaits
startRecording, updateAssignedExercise(status: in_progress),
createExerciseProgress in order; on success it populates the session slot
and toasts. Any throw jumps to the catch block, which calls stopRecording
and a best-effort revert write of the original status (revert failure
swallowed). The finally block clears sessionLoading on every path that set
it. -/
def handleStartExercise (env : StartEnv) (s : CoordState)
    (exercise : AssignedExercise) : CoordState × List Effect × StartOutcome :=
  match env.uid with
  | none => (s, [], .noUser)
  | some u =>
    if !env.connected then
      (s, [Effect.toast "Device not connected"], .rejectedDeviceNotConnected)
    else if s.sessionLoading || s.activeAssignmentId.isSome then
      (s, [Effect.toast "Session already in progress"], .rejectedSessionActive)
    else
      let catchEffects : List Effect :=
        [Effect.deviceStopRecording,
         Effect.store (.updateAssigned u exercise.id exercise.status none),
         Effect.toast "Could not start session"]
      let failedState : CoordState :=
        { s with sessionLoading := false, isRecording := false }
      if !env.startRecordingOk then
        (failedState,
         Effect.deviceStartRecording exercise.exerciseId :: catchEffects,
         .startFailed)
      else if !env.updateAssignedOk then
        (failedState,
         Effect.deviceStartRecording exercise.exerciseId ::
           Effect.store (.updateAssigned u exercise.id "in_progress" none) ::
             catchEffects,
         .startFailed)
      else
        match env.createProgressResult with
        | none =>
          (failedState,
           Effect.deviceStartRecording exercise.exerciseId ::
             Effect.store (.updateAssigned u exercise.id "in_progress" none) ::
               Effect.store
                   (.createProgress u exercise.exerciseId exercise.id env.now) ::
                 catchEffects,
           .startFailed)
        | some progressId =>
          ({ s with
              sessionLoading := false, isRecording := true,
              activeAssignmentId := some exercise.id,
              activeProgressId := some progressId },
           [Effect.deviceStartRecording exercise.exerciseId,
            Effect.store (.updateAssigned u exercise.id "in_progress" none),
            Effect.store
              (.createProgress u exercise.exerciseId exercise.id env.now),
            Effect.toast "Exercise started"],
           .started)

/-- Environment of one handleCompleteExercise run: the authenticated uid,
the timestamp Date.now() observed as completedAt, and the outcome of the
two awaited store writes. -/
structure CompleteEnv where
  uid : Option String
  now : Nat
  updateAssignedOk : Bool
  updateProgressOk : Bool
  deriving DecidableEq, Repr

/-- Result classification of a stop request: early return when no user or
no active assignment, the success path, or the catch path. -/
inductive CompleteOutcome where
  | noSession
  | completed
  | completeFailed
  deriving DecidableEq, Repr

/-- Embedding of handleCompleteExercise (src/unnamed/part_000, lines
226-270). Early return when uid or activeAssignmentId is missing.
Otherwise: set sessionLoading; in the try block call stopRecording, await
updateAssignedExercise(status: completed, completedAt), and, if a progress
id exists, await updateExerciseProgress(status: completed, sessionEndTime,
completedAt); on success toast and schedule fetchNetworkRecommendation
after 2000 ms. A throw jumps to the catch block (error toast). The finally
block clears the session slot and sessionLoading on every such path. -/
def handleCompleteExercise (env : CompleteEnv) (s : CoordState) :
    CoordState × List Effect × CompleteOutcome :=
  match env.uid, s.activeAssignmentId with
  | some u, some aid =>
    let cleared : CoordState :=
      { s with
          sessionLoading := false, activeAssignmentId := none,
          activeProgressId := none, isRecording := false }
    let base : List Effect :=
      [Effect.deviceStopRecording,
       Effect.store (.updateAssigned u aid "completed" (some env.now))]
    if !env.updateAssignedOk then
      (cleared, base ++ [Effect.toast "Could not complete exercise"],
       .completeFailed)
    else
      match s.activeProgressId with
      | some pid =>
        let withProgress : List Effect :=
          base ++ [Effect.store (.updateProgress u pid "completed" env.now env.now)]
        if !env.updateProgressOk then
          (cleared, withProgress ++ [Effect.toast "Could not complete exercise"],
           .completeFailed)
        else
          (cleared,
           withProgress ++ [Effect.toast "Exercise completed",
             Effect.scheduleRecommendationFetch 2000],
           .completed)
      | none =>
        (cleared,
         base ++ [Effect.toast "Exercise completed",
           Effect.scheduleRecommendationFetch 2000],
         .completed)
  | _, _ => (s, [], .noSession)

/-- Embedding of the reconciliation effect (src/unnamed/part_000, lines
273-281): when activeAssignmentId is null return immediately; otherwise
find the assigned exercise with that id in the subscribed list and, if it
is found with status completed, clear the session slot and call
stopRecording. No store writes are issued on any path. -/
def reconcileCompletedAssignment (s : CoordState)
    (assignedExercises : List AssignedExercise) : CoordState × List Effect :=
  match s.activeAssignmentId with
  | none => (s, [])
  | some aid =>
    match assignedExercises.find? (fun ex => ex.id == aid) with
    | some activeExercise =>
      if activeExercise.status == "completed" then
        ({ s with
            activeAssignmentId := none, activeProgressId := none,
            isRecording := false },
         [Effect.deviceStopRecording])
      else (s, [])
    | none => (s, [])

/-- An external stimulus handled by the coordinator: a start request with
its environment, a stop request with its environment, or a live
store-update batch feeding the reconciliation effect. -/
inductive Event where
  | startRequest (env : StartEnv) (exercise : AssignedExercise)
  | completeRequest (env : CompleteEnv)
  | storeUpdate (assignedExercises : List AssignedExercise)

/-- One step of the coordinator: dispatch an event to its handler and keep
the resulting state. -/
def stepEvent (s : CoordState) : Event → CoordState
  | .startRequest env ex => (handleStartExercise env s ex).1
  | .completeRequest env => (handleCompleteExercise env s).1
  | .storeUpdate exs => (reconcileCompletedAssignment s exs).1

/-- The state reached from the initial state after a sequence of events;
reachable states are exactly the values of this function. -/
def runEvents (events : List Event) : CoordState :=
  events.foldl stepEvent initialCoordState

/-- The session slot holds at most one pair: activeAssignmentId and
activeProgressId are non-null together or null together, so the slot never
holds a half pair or more than one pair. -/
def slotCoherent (s : CoordState) : Prop :=
  s.activeAssignmentId.isSome = s.activeProgressId.isSome

instance (s : CoordState) : Decidable (slotCoherent s) := by
  unfold slotCoherent; infer_instance

/-- A JSON value as the JavaScript code sees one after JSON.parse. Numbers
are modelled as integers; no claim depends on fractional values. -/
inductive Js where
  | null
  | bool (b : Bool)
  | num (n : Int)
  | str (s : String)
  | arr (elems : List Js)
  | obj (fields : List (String × Js))

/-- Optional-chained field access, as in data?.recommendations: an object
yields its first binding of the key, every other value yields undefined
(here none). -/
def jsGet : Js → String → Option Js
  | .obj fields, key => (fields.find? (fun f => f.1 == key)).map (fun f => f.2)
  | _, _ => none

/-- JavaScript truthiness of a JSON value: null, false, 0 and the empty
string are falsy; arrays and objects are always truthy. -/
def jsTruthy : Js → Bool
  | .null => false
  | .bool b => b
  | .num n => n != 0
  | .str s => s != ""
  | .arr _ => true
  | .obj _ => true

/-- Array.isArray on a JSON value. -/
def jsIsArray : Js → Bool
  | .arr _ => true
  | _ => false

/-- The element list of a JSON array (the code only reads this after an
Array.isArray check). -/
def jsAsArray : Js → List Js
  | .arr elems => elems
  | _ => []

/-- Truthiness of the field access data?.key: false when the field is
absent or the value is not an object. -/
def jsFieldTruthy (data : Js) (key : String) : Bool :=
  match jsGet data key with
  | some v => jsTruthy v
  | none => false

/-- The condition data?.recommendations && Array.isArray(data.recommendations)
of the fetcher. -/
def hasRecommendationsArray (data : Js) : Bool :=
  match jsGet data "recommendations" with
  | some v => jsTruthy v && jsIsArray v
  | none => false

/-- The component state touched by fetchNetworkRecommendation: the
recommendation list (the TypeScript code stores the parsed values without
runtime validation, so elements are modelled as JSON values) and the
loadingRecommendations flag. -/
structure FetchState where
  recommendations : List Js
  loadingRecommendations : Bool

/-- Outcome of the fetch call of one fetcher run: the fetch promise
rejects (network error), or an HTTP response arrives with its ok flag and
the result of response.json() (none when the body is not valid JSON and
json() rejects). -/
inductive FetchResponse where
  | netError
  | httpResp (ok : Bool) (jsonBody : Option Js)

/-- Embedding of fetchNetworkRecommendation (src/unnamed/part_000, lines
111-149). Without a userProfile it returns at once. A rejected fetch or
json() lands in the catch block, which only clears
loadingRecommendations. A non-ok response logs and clears the flag. On a
parsed body: a truthy recommendations array field replaces the whole list;
else a truthy recommendedExercise field wraps the body as a one-element
list; else the list is untouched; the flag is cleared in all three
cases. -/
def fetchNetworkRecommendation (userProfileUid : Option String)
    (resp : FetchResponse) (s : FetchState) : FetchState :=
  match userProfileUid with
  | none => s
  | some _ =>
    match resp with
    | .netError => { s with loadingRecommendations := false }
    | .httpResp ok jsonBody =>
      if !ok then { s with loadingRecommendations := false }
      else
        match jsonBody with
        | none => { s with loadingRecommendations := false }
        | some data =>
          if hasRecommendationsArray data then
            { recommendations :=
                jsAsArray ((jsGet data "recommendations").getD Js.null),
              loadingRecommendations := false }
          else if jsFieldTruthy data "recommendedExercise" then
            { recommendations := [data], loadingRecommendations := false }
          else
            { s with loadingRecommendations := false }

/-- Upstream outcome seen by the forwarder route: the fetch to the n8n
webhook rejects with an error message, or an HTTP response arrives with
status, ok, its body text, and the result JSON.parse would give on that
text (none when JSON.parse throws). -/
inductive UpstreamResult where
  | transportError (message : String)
  | httpResp (status : Nat) (ok : Bool) (bodyText : String)
      (parsedBody : Option Js)

/-- Embedding of safeParseJSON (src/server/routes.ts, lines 6-13): the
parsed JSON value of the body text when JSON.parse succeeds, otherwise the
fallback object with the raw text under the key raw. The behaviour of the
platform primitive JSON.parse on the text is supplied as parsedBody. -/
def safeParseJSON (bodyText : String) (parsedBody : Option Js) : Js :=
  match parsedBody with
  | some j => j
  | none => Js.obj [("raw", Js.str bodyText)]

/-- Embedding of the POST /api/n8n/patient-query handler
(src/server/routes.ts, lines 31-56): on an upstream response it mirrors
the upstream status and replies with the object containing status, ok and
the tolerantly parsed data; a transport failure is caught and answered
with status 500 and a structured error object. The function is total, so
no path throws past the handler boundary. -/
def patientQueryHandler : UpstreamResult → Nat × Js
  | .transportError message =>
    (500, Js.obj [("error", Js.str "Failed to reach n8n webhook"),
                  ("details", Js.str message)])
  | .httpResp status ok bodyText parsedBody =>
    (status, Js.obj [("status", Js.num (Int.ofNat status)),
                     ("ok", Js.bool ok),
                     ("data", safeParseJSON bodyText parsedBody)])

/-- A concrete assigned exercise used to evaluate the handlers. -/
def exampleExercise : AssignedExercise :=
  { id := "E1", exerciseId := "knee-extension",
    exerciseName := "Knee Extension", status := "assigned" }

/-- A start environment in which every external call succeeds. -/
def startEnvOk : StartEnv :=
  { uid := some "patient-1", connected := true, startRecordingOk := true,
    updateAssignedOk := true, createProgressResult := some "P1",
    revertOk := true, now := 100 }

/-- A start environment in which the device-recording start fails. -/
def startEnvRecFail : StartEnv :=
  { startEnvOk with startRecordingOk := false }

/-- A start environment with the device disconnected. -/
def startEnvDisconnected : StartEnv :=
  { startEnvOk with connected := false }

/-- A complete environment in which both store writes succeed. -/
def completeEnvOk : CompleteEnv :=
  { uid := some "patient-1", now := 200, updateAssignedOk := true,
    updateProgressOk := true }

/-- A complete environment in which the assignment write fails. -/
def completeEnvAssignFail : CompleteEnv :=
  { completeEnvOk with updateAssignedOk := false }

/-- A coordinator state with an active session slot (E1, P1). -/
def activeState : CoordState :=
  { sessionLoading := false, activeAssignmentId := some "E1",
    activeProgressId := some "P1", isRecording := true }

/-- A concrete recommendation-shaped JSON object. -/
def sampleRecommendation : Js :=
  Js.obj [("feedback", Js.str "good progress"),
          ("recommendedExercise", Js.str "Heel Slides"),
          ("rationale", Js.str "range of motion"),
          ("additionalAdvice", Js.str "go slow"),
          ("confidence", Js.num 1)]

/-- A concrete advisory response body holding a recommendations array. -/
def sampleBodyWithArray : Js :=
  Js.obj [("recommendations", Js.arr [sampleRecommendation])]

/-- A concrete fetcher state holding one prior recommendation. -/
def priorFetchState : FetchState :=
  { recommendations := [sampleRecommendation], loadingRecommendations := true }

/-- C7: the forced-idle reconciliation path is idempotent: a store-update
notification arriving while the session slot is already empty produces no
state change and issues no device command or store write. -/
theorem C7_reconcile_noop_on_empty_slot (s : CoordState)
    (exs : List AssignedExercise) (h : s.activeAssignmentId = none) :
    reconcileCompletedAssignment s exs = (s, []) := by
  unfold reconcileCompletedAssignment
  rw [h]

/-- C7 witness: evaluated at the initial state and a non-trivial update
batch, the reconciliation effect returns the state unchanged with no
effects. -/
theorem C7_reconcile_noop_on_empty_slot_witness :
    reconcileCompletedAssignment initialCoordState [exampleExercise] =
      (initialCoordState, []) :=
  C7_reconcile_noop_on_empty_slot initialCoordState [exampleExercise] rfl

/-- C6: when the session slot is non-null and the subscribed update batch
reports the active assignment as completed, reconciliation stops device
recording and clears the slot to (none, none); it issues no store write,
and every state field other than the slot and the recording flag (in
particular sessionLoading) is unchanged. -/
theorem C6_reconcile_forced_idle (s : CoordState)
    (exs : List AssignedExercise) (aid : String) (ex : AssignedExercise)
    (ha : s.activeAssignmentId = some aid)
    (hf : exs.find? (fun e2 => e2.id == aid) = some ex)
    (hc : ex.status = "completed") :
    reconcileCompletedAssignment s exs =
      ({ s with
          activeAssignmentId := none, activeProgressId := none,
          isRecording := false },
       [Effect.deviceStopRecording]) ∧
    ((reconcileCompletedAssignment s exs).2.all fun e => !e.isStore) = true ∧
    (reconcileCompletedAssignment s exs).1.sessionLoading = s.sessionLoading := by
  unfold reconcileCompletedAssignment
  rw [ha]
  simp [hf, hc, Effect.isStore]

/-- C6 witness: from the active state (E1, P1), an update batch reporting
E1 completed forces idle with only a stop-recording command. -/
theorem C6_reconcile_forced_idle_witness :
    reconcileCompletedAssignment activeState
        [{ exampleExercise with status := "completed" }] =
      ({ activeState with
          activeAssignmentId := none, activeProgressId := none,
          isRecording := false },
       [Effect.deviceStopRecording]) :=
  (C6_reconcile_forced_idle activeState
      [{ exampleExercise with status := "completed" }] "E1"
      { exampleExercise with status := "completed" } rfl (by decide) rfl).1

/-- C5: every stop request made while a session is active clears the
session slot (both ids to none) and the busy flag when it finishes, for
every outcome of the assignment write and of the progress-record write,
so the start guard sees an empty slot afterwards. -/
theorem C5_complete_clears_slot (env : CompleteEnv) (s : CoordState)
    (u : String) (hu : env.uid = some u)
    (ha : s.activeAssignmentId.isSome = true) :
    (handleCompleteExercise env s).1.activeAssignmentId = none ∧
    (handleCompleteExercise env s).1.activeProgressId = none ∧
    (handleCompleteExercise env s).1.sessionLoading = false := by
  obtain ⟨aid, haid⟩ := Option.isSome_iff_exists.mp ha
  unfold handleCompleteExercise
  rw [hu, haid]
  cases hb : env.updateAssignedOk <;>
    cases hp : s.activeProgressId <;>
      cases hq : env.updateProgressOk <;> simp

/-- C5 witness: with the assignment write failing, the stop sequence from
the active state (E1, P1) still ends with an empty slot and a cleared
busy flag. -/
theorem C5_complete_clears_slot_witness :
    (handleCompleteExercise completeEnvAssignFail activeState).1.activeAssignmentId = none ∧
    (handleCompleteExercise completeEnvAssignFail activeState).1.activeProgressId = none ∧
    (handleCompleteExercise completeEnvAssignFail activeState).1.sessionLoading = false :=
  C5_complete_clears_slot completeEnvAssignFail activeState "patient-1" rfl rfl

/-- C9: the forwarder answers a transport failure with status 500 and a
structured error object; it mirrors status and ok of every upstream
response and returns the parsed body as data, falling back to the object
with the raw text under the key raw when the body is not valid JSON; being
a total function it throws past no boundary; in particular an upstream
plain-text Internal Server Error with status 500 yields status 500, ok
false, and data wrapping the raw text. -/
theorem C9_forwarder_contract :
    (∀ msg, patientQueryHandler (.transportError msg) =
      (500, Js.obj [("error", Js.str "Failed to reach n8n webhook"),
                    ("details", Js.str msg)])) ∧
    (∀ status ok bodyText parsedBody,
      patientQueryHandler (.httpResp status ok bodyText parsedBody) =
        (status, Js.obj [("status", Js.num (Int.ofNat status)),
                         ("ok", Js.bool ok),
                         ("data", safeParseJSON bodyText parsedBody)])) ∧
    (∀ bodyText, safeParseJSON bodyText none =
      Js.obj [("raw", Js.str bodyText)]) ∧
    (∀ bodyText j, safeParseJSON bodyText (some j) = j) ∧
    patientQueryHandler (.httpResp 500 false "Internal Server Error" none) =
      (500, Js.obj [("status", Js.num 500), ("ok", Js.bool false),
                    ("data", Js.obj [("raw", Js.str "Internal Server Error")])]) :=
  ⟨fun _ => rfl, fun _ _ _ _ => rfl, fun _ => rfl, fun _ _ => rfl, rfl⟩

/-- C2: a start request made with the device disconnected, or with the
session slot occupied or a start already in flight, is rejected with one
of the two precondition outcomes, leaves the coordinator state unchanged,
and issues only user-facing toasts: no device command and no store
write. -/
theorem C2_precondition_rejection (env : StartEnv) (s : CoordState)
    (ex : AssignedExercise) (u : String) (hu : env.uid = some u)
    (hg : env.connected = false ∨ s.sessionLoading = true ∨
      s.activeAssignmentId.isSome = true) :
    (handleStartExercise env s ex).1 = s ∧
    ((handleStartExercise env s ex).2.2 =
        StartOutcome.rejectedDeviceNotConnected ∨
      (handleStartExercise env s ex).2.2 = StartOutcome.rejectedSessionActive) ∧
    ((handleStartExercise env s ex).2.1.all fun e => e.isToast) = true := by
  unfold handleStartExercise
  rw [hu]
  rcases hg with hg | hg | hg
  · simp [hg, Effect.isToast]
  · cases hc : env.connected <;> simp [hg, Effect.isToast]
  · cases hc : env.connected <;> simp [hg, Effect.isToast]

/-- C2 witness: with the device disconnected, a start request from the
initial state is rejected with no state change and only a toast. -/
theorem C2_precondition_rejection_witness :
    (handleStartExercise startEnvDisconnected initialCoordState
        exampleExercise).1 = initialCoordState ∧
    ((handleStartExercise startEnvDisconnected initialCoordState
        exampleExercise).2.2 = StartOutcome.rejectedDeviceNotConnected ∨
      (handleStartExercise startEnvDisconnected initialCoordState
        exampleExercise).2.2 = StartOutcome.rejectedSessionActive) ∧
    ((handleStartExercise startEnvDisconnected initialCoordState
        exampleExercise).2.1.all fun e => e.isToast) = true :=
  C2_precondition_rejection startEnvDisconnected initialCoordState
    exampleExercise "patient-1" rfl (Or.inl rfl)

/-- C4 counterexample: when the device-recording start fails, the catch
block still issues a store write (the best-effort revert of the assignment
status), so the claim that no further store writes occur is false on the
code. -/
theorem C4_counterexample :
    ((handleStartExercise startEnvRecFail initialCoordState
        exampleExercise).2.1.any Effect.isStore) = true := by decide

/-- C4 amended: when the device-recording start fails, the machine returns
to idle with the session slot still empty and the busy flag cleared, and
the only store write issued is the best-effort revert that writes the
prior assignment status back; no in-progress write and no progress-record
creation occurs. -/
theorem C4_start_device_failure_behaviour (env : StartEnv) (s : CoordState)
    (ex : AssignedExercise) (u : String) (hu : env.uid = some u)
    (hc : env.connected = true) (hl : s.sessionLoading = false)
    (ha : s.activeAssignmentId = none)
    (hf : env.startRecordingOk = false) :
    (handleStartExercise env s ex).1 =
      { s with sessionLoading := false, isRecording := false } ∧
    (handleStartExercise env s ex).1.activeAssignmentId = none ∧
    (handleStartExercise env s ex).1.activeProgressId = s.activeProgressId ∧
    (handleStartExercise env s ex).2.2 = StartOutcome.startFailed ∧
    (handleStartExercise env s ex).2.1 =
      [Effect.deviceStartRecording ex.exerciseId,
       Effect.deviceStopRecording,
       Effect.store (.updateAssigned u ex.id ex.status none),
       Effect.toast "Could not start session"] := by
  unfold handleStartExercise
  rw [hu]
  simp [hc, hl, ha, hf]

/-- C4 amended witness: concrete run of a start whose device-recording
start fails, showing the emitted call sequence including the revert
write. -/
theorem C4_start_device_failure_witness :
    (handleStartExercise startEnvRecFail initialCoordState
        exampleExercise).2.1 =
      [Effect.deviceStartRecording "knee-extension",
       Effect.deviceStopRecording,
       Effect.store (.updateAssigned "patient-1" "E1" "assigned" none),
       Effect.toast "Could not start session"] :=
  (C4_start_device_failure_behaviour startEnvRecFail initialCoordState
    exampleExercise "patient-1" rfl rfl rfl rfl rfl).2.2.2.2

/-- C10: both handler sequences clear the sessionLoading busy flag when
they finish, on the success path and on every failure path, so no
finished request leaves the coordinator refusing starts through a stuck
flag. -/
theorem C10_busy_flag_reset :
    (∀ (env : StartEnv) (s : CoordState) (ex : AssignedExercise) (u : String),
      env.uid = some u → env.connected = true → s.sessionLoading = false →
      s.activeAssignmentId = none →
      (handleStartExercise env s ex).1.sessionLoading = false) ∧
    (∀ (env : CompleteEnv) (s : CoordState) (u aid : String),
      env.uid = some u → s.activeAssignmentId = some aid →
      (handleCompleteExercise env s).1.sessionLoading = false) := by
  constructor
  · intro env s ex u hu hc hl ha
    unfold handleStartExercise
    rw [hu]
    cases hr : env.startRecordingOk <;> cases hw : env.updateAssignedOk <;>
      cases hp : env.createProgressResult <;> simp [hc, hl, ha]
  · intro env s u aid hu ha
    unfold handleCompleteExercise
    rw [hu, ha]
    cases hb : env.updateAssignedOk <;> cases hp : s.activeProgressId <;>
      cases hq : env.updateProgressOk <;> simp

/-- C10 witness: a failed start and a failed stop both end with the busy
flag cleared. -/
theorem C10_busy_flag_reset_witness :
    (handleStartExercise startEnvRecFail initialCoordState
        exampleExercise).1.sessionLoading = false ∧
    (handleCompleteExercise completeEnvAssignFail
        activeState).1.sessionLoading = false :=
  ⟨C10_busy_flag_reset.1 startEnvRecFail initialCoordState exampleExercise
      "patient-1" rfl rfl rfl rfl,
    C10_busy_flag_reset.2 completeEnvAssignFail activeState
      "patient-1" "E1" rfl rfl⟩

/-- C3 counterexample: from the active state (E1, P1), a stop request in
which the assignment write fails issues no updateExerciseProgress call at
all, although a progress id exists — so the claim that a failure of the
assignment write does not prevent the progress-record write is false on
the code. -/
theorem C3_counterexample :
    activeState.activeProgressId.isSome = true ∧
    ((handleCompleteExercise completeEnvAssignFail activeState).2.1.any
      Effect.isProgressUpdate) = false := by decide

/-- C3 amended: every stop request made while a session is active first
stops device recording and then issues the completed write to the active
assignment; the progress-record write (status completed, sessionEndTime
and completedAt both the observed timestamp) follows exactly when the
assignment write succeeded and a progress id exists, and is skipped when
the assignment write failed or no progress id exists. -/
theorem C3_complete_sequence (env : CompleteEnv) (s : CoordState)
    (u aid : String) (hu : env.uid = some u)
    (ha : s.activeAssignmentId = some aid) :
    ∃ rest,
      (handleCompleteExercise env s).2.1 =
        Effect.deviceStopRecording ::
          Effect.store (.updateAssigned u aid "completed" (some env.now)) ::
            rest ∧
      ((env.updateAssignedOk = true ∧ (∃ pid, s.activeProgressId = some pid ∧
          rest.head? = some (Effect.store
            (.updateProgress u pid "completed" env.now env.now)))) ∨
        ((env.updateAssignedOk = false ∨ s.activeProgressId = none) ∧
          (rest.any Effect.isProgressUpdate) = false)) := by
  cases hb : env.updateAssignedOk with
  | false =>
    refine ⟨[Effect.toast "Could not complete exercise"], ?_,
      Or.inr ⟨Or.inl rfl, rfl⟩⟩
    unfold handleCompleteExercise
    rw [hu, ha]
    simp [hb]
  | true =>
    cases hp : s.activeProgressId with
    | none =>
      refine ⟨[Effect.toast "Exercise completed",
        Effect.scheduleRecommendationFetch 2000], ?_,
        Or.inr ⟨Or.inr rfl, rfl⟩⟩
      unfold handleCompleteExercise
      rw [hu, ha]
      simp [hb, hp]
    | some pid =>
      cases hq : env.updateProgressOk with
      | false =>
        refine ⟨[Effect.store (.updateProgress u pid "completed" env.now env.now),
          Effect.toast "Could not complete exercise"], ?_,
          Or.inl ⟨rfl, pid, rfl, rfl⟩⟩
        unfold handleCompleteExercise
        rw [hu, ha]
        simp [hb, hp, hq]
      | true =>
        refine ⟨[Effect.store (.updateProgress u pid "completed" env.now env.now),
          Effect.toast "Exercise completed",
          Effect.scheduleRecommendationFetch 2000], ?_,
          Or.inl ⟨rfl, pid, rfl, rfl⟩⟩
        unfold handleCompleteExercise
        rw [hu, ha]
        simp [hb, hp, hq]

/-- C3 amended witness: the fully successful stop sequence from the active
state, with the progress write present right after the assignment
write. -/
theorem C3_complete_sequence_witness :
    ∃ rest,
      (handleCompleteExercise completeEnvOk activeState).2.1 =
        Effect.deviceStopRecording ::
          Effect.store (.updateAssigned "patient-1" "E1" "completed"
            (some completeEnvOk.now)) :: rest ∧
      ((completeEnvOk.updateAssignedOk = true ∧
          (∃ pid, activeState.activeProgressId = some pid ∧
            rest.head? = some (Effect.store (.updateProgress "patient-1" pid
              "completed" completeEnvOk.now completeEnvOk.now)))) ∨
        ((completeEnvOk.updateAssignedOk = false ∨
            activeState.activeProgressId = none) ∧
          (rest.any Effect.isProgressUpdate) = false)) :=
  C3_complete_sequence completeEnvOk activeState "patient-1" "E1" rfl rfl

/-- C8: one fetcher run leaves the prior recommendation list untouched on
a network error, on a non-success response and on a non-JSON body, and no
exception escapes (the embedding is a total function); on a parsed body it
replaces the list with the recommendations array field when one is
present, else wraps a body with a truthy recommendedExercise field as a
one-element list, else leaves the list unchanged. -/
theorem C8_fetch_tolerant (u : String) (s : FetchState) :
    (fetchNetworkRecommendation (some u) FetchResponse.netError
        s).recommendations = s.recommendations ∧
    (∀ jsonBody, (fetchNetworkRecommendation (some u)
        (.httpResp false jsonBody) s).recommendations = s.recommendations) ∧
    (fetchNetworkRecommendation (some u) (.httpResp true none)
        s).recommendations = s.recommendations ∧
    (∀ data recs, jsGet data "recommendations" = some (Js.arr recs) →
      (fetchNetworkRecommendation (some u) (.httpResp true (some data))
        s).recommendations = recs) ∧
    (∀ data, hasRecommendationsArray data = false →
      jsFieldTruthy data "recommendedExercise" = true →
      (fetchNetworkRecommendation (some u) (.httpResp true (some data))
        s).recommendations = [data]) ∧
    (∀ data, hasRecommendationsArray data = false →
      jsFieldTruthy data "recommendedExercise" = false →
      (fetchNetworkRecommendation (some u) (.httpResp true (some data))
        s).recommendations = s.recommendations) := by
  refine ⟨rfl, fun _ => rfl, rfl, ?_, ?_, ?_⟩
  · intro data recs h
    simp [fetchNetworkRecommendation, hasRecommendationsArray, h,
      jsTruthy, jsIsArray, jsAsArray]
  · intro data h1 h2
    simp [fetchNetworkRecommendation, h1, h2]
  · intro data h1 h2
    simp [fetchNetworkRecommendation, h1, h2]

/-- C8 witness: a successful response whose body carries a recommendations
array replaces the prior list with exactly that array. -/
theorem C8_fetch_tolerant_witness :
    (fetchNetworkRecommendation (some "patient-1")
        (.httpResp true (some sampleBodyWithArray))
        priorFetchState).recommendations = [sampleRecommendation] :=
  (C8_fetch_tolerant "patient-1" priorFetchState).2.2.2.1
    sampleBodyWithArray [sampleRecommendation] rfl

/-- A start request preserves slot coherence: the slot is either left
unchanged or filled with both ids at once. -/
lemma slotCoherent_handleStartExercise (env : StartEnv) (s : CoordState)
    (ex : AssignedExercise) (h : slotCoherent s) :
    slotCoherent (handleStartExercise env s ex).1 := by
  unfold slotCoherent handleStartExercise at *
  dsimp only
  repeat' split
  all_goals first | exact h | rfl

/-- A stop request preserves slot coherence: the slot is either left
unchanged or cleared on both sides at once. -/
lemma slotCoherent_handleCompleteExercise (env : CompleteEnv)
    (s : CoordState) (h : slotCoherent s) :
    slotCoherent (handleCompleteExercise env s).1 := by
  unfold slotCoherent handleCompleteExercise at *
  cases hu : env.uid <;> cases ha : s.activeAssignmentId <;>
    cases hb : env.updateAssignedOk <;> cases hp : s.activeProgressId <;>
      cases hq : env.updateProgressOk <;> simp_all

/-- The reconciliation effect preserves slot coherence. -/
lemma slotCoherent_reconcile (s : CoordState)
    (exs : List AssignedExercise) (h : slotCoherent s) :
    slotCoherent (reconcileCompletedAssignment s exs).1 := by
  unfold slotCoherent reconcileCompletedAssignment at *
  repeat' split
  all_goals first | exact h | rfl

/-- Every coordinator event preserves slot coherence. -/
lemma slotCoherent_stepEvent (s : CoordState) (e : Event)
    (h : slotCoherent s) : slotCoherent (stepEvent s e) := by
  cases e with
  | startRequest env ex => exact slotCoherent_handleStartExercise env s ex h
  | completeRequest env => exact slotCoherent_handleCompleteExercise env s h
  | storeUpdate exs => exact slotCoherent_reconcile s exs h

/-- Slot coherence is preserved along any event sequence. -/
lemma slotCoherent_foldl (events : List Event) :
    ∀ s, slotCoherent s → slotCoherent (events.foldl stepEvent s) := by
  induction events with
  | nil => intro s h; simpa using h
  | cons e rest ih => intro s h; exact ih _ (slotCoherent_stepEvent s e h)

/-- C1: in every reachable coordinator state the session slot holds at
most one pair — activeAssignmentId and activeProgressId are non-null
together or null together — and a start request fills an empty slot only
when the device-recording start, the in-progress assignment write and the
progress-record creation all succeeded, the calls having been issued in
that order before the slot is populated. -/
theorem C1_single_session_slot :
    (∀ events : List Event, slotCoherent (runEvents events)) ∧
    (∀ (env : StartEnv) (s : CoordState) (ex : AssignedExercise),
      s.activeAssignmentId = none →
      (handleStartExercise env s ex).1.activeAssignmentId.isSome = true →
      env.startRecordingOk = true ∧ env.updateAssignedOk = true ∧
      env.createProgressResult.isSome = true ∧ env.uid.isSome = true ∧
      (handleStartExercise env s ex).2.2 = StartOutcome.started ∧
      (handleStartExercise env s ex).1.activeAssignmentId = some ex.id ∧
      (handleStartExercise env s ex).1.activeProgressId =
        env.createProgressResult ∧
      (handleStartExercise env s ex).2.1 =
        [Effect.deviceStartRecording ex.exerciseId,
         Effect.store (.updateAssigned (env.uid.getD "") ex.id
           "in_progress" none),
         Effect.store (.createProgress (env.uid.getD "") ex.exerciseId
           ex.id env.now),
         Effect.toast "Exercise started"]) := by
  constructor
  · intro events
    exact slotCoherent_foldl events initialCoordState (by decide)
  · intro env s ex ha hpop
    unfold handleStartExercise at hpop ⊢
    cases hu : env.uid <;> cases hc : env.connected <;>
      cases hl : s.sessionLoading <;> cases hr : env.startRecordingOk <;>
        cases hw : env.updateAssignedOk <;>
          cases hp : env.createProgressResult <;> simp_all

/-- C1 witness: a fully successful start from the initial state populates
the slot with the new assignment and progress ids, after the three calls
in order. -/
theorem C1_single_session_slot_witness :
    startEnvOk.startRecordingOk = true ∧
    startEnvOk.updateAssignedOk = true ∧
    startEnvOk.createProgressResult.isSome = true ∧
    startEnvOk.uid.isSome = true ∧
    (handleStartExercise startEnvOk initialCoordState
      exampleExercise).2.2 = StartOutcome.started ∧
    (handleStartExercise startEnvOk initialCoordState
      exampleExercise).1.activeAssignmentId = some exampleExercise.id ∧
    (handleStartExercise startEnvOk initialCoordState
      exampleExercise).1.activeProgressId = startEnvOk.createProgressResult ∧
    (handleStartExercise startEnvOk initialCoordState exampleExercise).2.1 =
      [Effect.deviceStartRecording exampleExercise.exerciseId,
       Effect.store (.updateAssigned (startEnvOk.uid.getD "")
         exampleExercise.id "in_progress" none),
       Effect.store (.createProgress (startEnvOk.uid.getD "")
         exampleExercise.exerciseId exampleExercise.id startEnvOk.now),
       Effect.toast "Exercise started"] :=
  C1_single_session_slot.2 startEnvOk initialCoordState exampleExercise
    rfl rfl

end KneeBraced
